import Mathlib

/-!
Verification development for the WSA record-processing pipeline.

The Python sources (`src/utils.py`, `src/data_processor.py`,
`config/settings.py`, `src/quality_checker.py`) are shallowly embedded here:

* scalar cell values are modelled by `Value` (null / string / parsed
  timestamp); a pandas `DataFrame` is a column list plus rows of cells;
* pure field-normalisation helpers (`clean_string`, `normalize_phone`,
  `extract_order_id`, `parse_date`, `format_date`) are translated directly,
  with `strptime` modelled after the directive regexes used by Python's
  `_strptime` for the seven configured formats;
* the `DataProcessor` stages are modelled over an explicit heap of frames
  (`ProcState`), so that object copies and in-place column writes are
  visible: `.copy()` and frame-producing pandas operations allocate a fresh
  heap cell, in-place column assignment writes a cell. Failures (`raise`,
  `TypeError`, `KeyError`) are `Except.error`.

Pandas dtype subtleties are outside the model: a `Date Created DT` column is
assumed to hold parsed timestamps or nulls, as produced by `clean_common`.
-/

/-- Calendar timestamp as produced by `datetime.strptime`. -/
structure DateTime where
  year : Nat
  month : Nat
  day : Nat
  hour : Nat
  minute : Nat
  second : Nat
deriving Repr, DecidableEq

/-- Scalar cell value of the record table: null (NaN/None/NaT), a string, or
a parsed timestamp. -/
inductive Value where
  | na : Value
  | str : String → Value
  | dt : DateTime → Value
deriving Repr, DecidableEq

/-- `pd.isna` on a scalar. -/
def pyIsna : Value → Bool
  | .na => true
  | _ => false

/-- Left-pad with zeros to two digits. -/
def pad2 (n : Nat) : String :=
  if n < 10 then "0" ++ toString n else toString n

/-- Left-pad with zeros to four digits. -/
def pad4 (n : Nat) : String :=
  if n < 10 then "000" ++ toString n
  else if n < 100 then "00" ++ toString n
  else if n < 1000 then "0" ++ toString n
  else toString n

/-- Python `str()` of a cell (`str(np.nan) = "nan"`, `str(datetime)` is the
ISO-like form). -/
def pyStr : Value → String
  | .na => "nan"
  | .str s => s
  | .dt d =>
      pad4 d.year ++ "-" ++ pad2 d.month ++ "-" ++ pad2 d.day ++ " " ++
      pad2 d.hour ++ ":" ++ pad2 d.minute ++ ":" ++ pad2 d.second

/-- Does `needle` begin the character list? -/
def charsLead : List Char → List Char → Bool
  | [], _ => true
  | _ :: _, [] => false
  | a :: as, b :: bs => a == b && charsLead as bs

/-- Does the character list contain `needle` as a contiguous run? -/
def charsHas : List Char → List Char → Bool
  | [], needle => needle.isEmpty
  | h :: t, needle => charsLead needle (h :: t) || charsHas t needle

/-- Substring test (Python `needle in hay`). All string computation in this
development is done on the character lists, which the kernel can evaluate. -/
def strContains (hay needle : String) : Bool :=
  charsHas hay.data needle.data

/-- Python `str.strip()`: drop leading and trailing whitespace. -/
def pyStrip (s : String) : String :=
  String.mk (((s.data.dropWhile Char.isWhitespace).reverse.dropWhile
    Char.isWhitespace).reverse)

/-- Python `str.upper()` (ASCII, which is all the code compares). -/
def upperStr (s : String) : String := String.mk (s.data.map Char.toUpper)

/-- Python `str.lower()` (ASCII). -/
def lowerStr (s : String) : String := String.mk (s.data.map Char.toLower)

/-- `re.sub(r'\.0$', '', s)`: drop one trailing literal ".0". -/
def stripDot0 (s : String) : String :=
  if charsLead ['0', '.'] s.data.reverse then String.mk (s.data.dropLast.dropLast)
  else s

/-- Split a character list at every occurrence of the separator character
(Python `str.split(sep)` for a one-character separator). -/
def splitChar (sep : Char) : List Char → List (List Char)
  | [] => [[]]
  | c :: cs =>
    let rest := splitChar sep cs
    if c == sep then [] :: rest
    else
      match rest with
      | [] => [[c]]
      | g :: gs => (c :: g) :: gs

/-- Segment of `s` before the first occurrence of `sep` (`s.split(sep)[0]`). -/
def beforeFirst (sep : Char) (s : String) : String :=
  String.mk (((splitChar sep s.data).headD s.data))

/-- `utils.clean_string`: empty for null, else str → optional strip →
drop trailing ".0" → optional uppercase. -/
def clean_string (val : Value) (uppercase : Bool) (strip : Bool) : String :=
  if pyIsna val then ""
  else
    let result := pyStr val
    let result := if strip then pyStrip result else result
    let result := stripDot0 result
    let result := if uppercase then upperStr result else result
    result

/-- `utils.normalize_phone`: keep digits only, then map leading "0"→"62…"
and leading "8"→"628…". -/
def normalize_phone (phone : Value) : String :=
  if pyIsna phone || pyStrip (pyStr phone) == "" then ""
  else
    let p := clean_string phone false true
    let p := p.data.filter Char.isDigit
    if charsLead ['0'] p then "62" ++ String.mk (p.drop 1)
    else if charsLead ['8'] p then "62" ++ String.mk p
    else String.mk p

/-- `utils.extract_order_id`: clean again, then keep the segment before the
first underscore when one is present. -/
def extract_order_id (text : String) : String :=
  let t := clean_string (Value.str text) false true
  if t.data.contains '_' then beforeFirst '_' t else t

/-- Numeric value of a decimal digit character. -/
def digitVal (c : Char) : Nat := c.toNat - '0'.toNat

/-- Inclusive range test on naturals, as a boolean. -/
def between (lo hi v : Nat) : Bool := decide (lo ≤ v) && decide (v ≤ hi)

/-- Read a two-digit field when its value is admissible, else fall back to a
single digit (mirrors the alternation order of Python strptime's directive
regexes, e.g. `1[0-2]|0[1-9]|[1-9]` for `%m`). -/
def readTwoOrOne (ok2 ok1 : Nat → Bool) : List Char → Option (Nat × List Char)
  | c1 :: c2 :: rest =>
    if c1.isDigit && c2.isDigit && ok2 (digitVal c1 * 10 + digitVal c2) then
      some (digitVal c1 * 10 + digitVal c2, rest)
    else if c1.isDigit && ok1 (digitVal c1) then
      some (digitVal c1, c2 :: rest)
    else none
  | [c1] => if c1.isDigit && ok1 (digitVal c1) then some (digitVal c1, []) else none
  | [] => none

/-- Read exactly four digits (strptime `%Y`). -/
def read4Digits : List Char → Option (Nat × List Char)
  | a :: b :: c :: d :: rest =>
    if a.isDigit && b.isDigit && c.isDigit && d.isDigit then
      some (((digitVal a * 10 + digitVal b) * 10 + digitVal c) * 10 + digitVal d, rest)
    else none
  | _ => none

/-- Interpreter for the strptime directives used by the configured formats
(`%Y %m %d %H %M %S` plus literal characters); all input must be consumed. -/
def runFormat : List Char → List Char → DateTime → Option DateTime
  | [], [], acc => some acc
  | [], _ :: _, _ => none
  | '%' :: 'Y' :: fs, cs, acc =>
    match read4Digits cs with
    | some (v, rest) => runFormat fs rest { acc with year := v }
    | none => none
  | '%' :: 'm' :: fs, cs, acc =>
    match readTwoOrOne (between 1 12) (between 1 9) cs with
    | some (v, rest) => runFormat fs rest { acc with month := v }
    | none => none
  | '%' :: 'd' :: fs, cs, acc =>
    match readTwoOrOne (between 1 31) (between 1 9) cs with
    | some (v, rest) => runFormat fs rest { acc with day := v }
    | none => none
  | '%' :: 'H' :: fs, cs, acc =>
    match readTwoOrOne (between 0 23) (between 0 9) cs with
    | some (v, rest) => runFormat fs rest { acc with hour := v }
    | none => none
  | '%' :: 'M' :: fs, cs, acc =>
    match readTwoOrOne (between 0 59) (between 0 9) cs with
    | some (v, rest) => runFormat fs rest { acc with minute := v }
    | none => none
  | '%' :: 'S' :: fs, cs, acc =>
    match readTwoOrOne (between 0 59) (between 0 9) cs with
    | some (v, rest) => runFormat fs rest { acc with second := v }
    | none => none
  | f :: fs, c :: cs, acc => if f == c then runFormat fs cs acc else none
  | _ :: _, [], _ => none

/-- Gregorian leap-year test. -/
def isLeap (y : Nat) : Bool :=
  y % 4 == 0 && (y % 100 != 0 || y % 400 == 0)

/-- Number of days of a month. -/
def daysInMonth (y m : Nat) : Nat :=
  if m = 2 then (if isLeap y then 29 else 28)
  else if m = 4 ∨ m = 6 ∨ m = 9 ∨ m = 11 then 30
  else 31

/-- `datetime.strptime` restricted to the directives of the configured
formats; the final `datetime(...)` construction validates the day. -/
def strptime (fmt s : String) : Option DateTime :=
  match runFormat fmt.data s.data ⟨1900, 1, 1, 0, 0, 0⟩ with
  | some d => if d.day ≤ daysInMonth d.year d.month then some d else none
  | none => none

/-- The fixed format list of `utils.parse_date`. -/
def PARSE_FORMATS : List String :=
  ["%Y-%m-%d %H:%M:%S",
   "%d/%m/%Y %H:%M:%S",
   "%d/%m/%Y %H:%M",
   "%m/%d/%Y %H:%M:%S",
   "%Y-%m-%d",
   "%d/%m/%Y",
   "%m/%d/%Y"]

/-- First format that parses, if any. -/
def tryFormats : List String → String → Option DateTime
  | [], _ => none
  | f :: fs, s =>
    match strptime f s with
    | some d => some d
    | none => tryFormats fs s

/-- `utils.parse_date`: null/blank → none, else strip, drop a trailing ".0"
and try the fixed format list in order; never raises. -/
def parse_date (v : Value) : Option DateTime :=
  if pyIsna v || pyStrip (pyStr v) == "" then none
  else
    let s := stripDot0 (pyStrip (pyStr v))
    tryFormats PARSE_FORMATS s

/-- `strftime` restricted to the directives the code uses. -/
def strftime : List Char → DateTime → String
  | [], _ => ""
  | '%' :: 'd' :: fs, d => pad2 d.day ++ strftime fs d
  | '%' :: 'm' :: fs, d => pad2 d.month ++ strftime fs d
  | '%' :: 'Y' :: fs, d => pad4 d.year ++ strftime fs d
  | '%' :: 'H' :: fs, d => pad2 d.hour ++ strftime fs d
  | '%' :: 'M' :: fs, d => pad2 d.minute ++ strftime fs d
  | '%' :: 'S' :: fs, d => pad2 d.second ++ strftime fs d
  | c :: fs, d => String.singleton c ++ strftime fs d

/-- `utils.format_date`: empty for a null date, else strftime. -/
def format_date (d : Option DateTime) (fmt : String) : String :=
  match d with
  | none => ""
  | some dt => strftime fmt.data dt

/-- A pandas DataFrame: named columns and rows of cells, cell `i` of a row
belonging to column `i`. Well-formed frames have `row.length = cols.length`
for every row. -/
structure DataFrame where
  cols : List String
  rows : List (List Value)
deriving Repr, DecidableEq

/-- Well-formedness: every row has one cell per column. -/
def DataFrame.WF (df : DataFrame) : Prop :=
  ∀ r ∈ df.rows, r.length = df.cols.length

instance (df : DataFrame) : Decidable df.WF :=
  inferInstanceAs (Decidable (∀ r ∈ df.rows, r.length = df.cols.length))

/-- Cell of row `r` in column `c` (callers guard for column presence, as the
code does). -/
def DataFrame.col (df : DataFrame) (r : List Value) (c : String) : Value :=
  r.getD (df.cols.indexOf c) Value.na

/-- Column assignment `df[c] = df.apply(f, …)`: overwrite the column when it
exists, else append it on the right (pandas column-assignment semantics). -/
def DataFrame.setCol (df : DataFrame) (c : String) (f : List Value → Value) :
    DataFrame :=
  if c ∈ df.cols then
    ⟨df.cols, df.rows.map fun r => r.set (df.cols.indexOf c) (f r)⟩
  else
    ⟨df.cols ++ [c], df.rows.map fun r => r ++ [f r]⟩

/-- Column assignment from a per-cell map `df[c] = df[c].apply(g)`. -/
def DataFrame.mapCol (df : DataFrame) (c : String) (g : Value → Value) :
    DataFrame :=
  df.setCol c (fun r => g (df.col r c))

/-- Boolean-mask row filter `df[mask]` (produces a new frame). -/
def DataFrame.filterRows (df : DataFrame) (p : List Value → Bool) : DataFrame :=
  ⟨df.cols, df.rows.filter p⟩

/-- `df.drop(columns=cs)`. -/
def DataFrame.dropCols (df : DataFrame) (cs : List String) : DataFrame :=
  ⟨df.cols.filter (fun c => !cs.contains c),
   df.rows.map fun r =>
     ((df.cols.zip r).filter (fun p => !cs.contains p.1)).map (fun p => p.2)⟩

/-- Column projection/reordering `df[cs]`. -/
def DataFrame.selectCols (df : DataFrame) (cs : List String) : DataFrame :=
  ⟨cs, df.rows.map fun r => cs.map (fun c => df.col r c)⟩

/-- Lexicographic order on character lists by code point. -/
def charsLe : List Char → List Char → Bool
  | [], _ => true
  | _ :: _, [] => false
  | a :: as, b :: bs =>
    if a.toNat < b.toNat then true
    else if b.toNat < a.toNat then false
    else charsLe as bs

/-- Sort key order for `sort_values`: strings lexicographically, timestamps
chronologically, nulls last (pandas default `na_position`). -/
def valLe : Value → Value → Bool
  | .na, .na => true
  | .na, _ => false
  | _, .na => true
  | .str a, .str b => charsLe a.data b.data
  | .str _, .dt _ => true
  | .dt _, .str _ => false
  | .dt a, .dt b =>
    charsLe (pyStr (.dt a)).data (pyStr (.dt b)).data

/-- `df.sort_values(c)`. -/
def DataFrame.sortByCol (df : DataFrame) (c : String) : DataFrame :=
  ⟨df.cols, df.rows.mergeSort fun r1 r2 => valLe (df.col r1 c) (df.col r2 c)⟩

/-! ### Configuration (`config/settings.py`) -/

/-- The business-key column `DataProcessor.col_sc`. -/
def COL_SC : String := "SC Order No/Track ID/CSRM No"

/-- `FILTER_CONFIG["WSA"]["patterns"]`. -/
def WSA_patterns : List String := ["AO", "PDA", "WSA"]

/-- `FILTER_CONFIG["WSA"]["crm_order_types"]`. -/
def WSA_crm_order_types : List String := ["CREATE", "MIGRATE"]

/-- `FILTER_CONFIG["MODOROSO"]["patterns"]`. -/
def MODOROSO_patterns : List String := ["-MO", "-DO"]

/-- `FILTER_CONFIG["MODOROSO"]["default_mitra"]`. -/
def MODOROSO_default_mitra : String := "TSEL"

/-- `FILTER_CONFIG["WAPPR"]["patterns"]`. -/
def WAPPR_patterns : List String := ["AO", "PDA"]

/-- `FILTER_CONFIG["WAPPR"]["status_filter"]`. -/
def WAPPR_status_filter : List String := ["WAPPR"]

/-- `COLUMN_MAPPINGS["output_columns"].get(mode, [])`. -/
def output_columns (mode : String) : List String :=
  if mode = "WSA" then
    ["Date Created", "Workorder", "SC Order No/Track ID/CSRM No",
     "Service No.", "CRM Order Type", "Status", "Address",
     "Customer Name", "Workzone", "Booking Date", "Contact Number"]
  else if mode = "MODOROSO" then
    ["Date Created", "Workorder", "SC Order No/Track ID/CSRM No",
     "Service No.", "CRM Order Type", "Status", "Address",
     "Customer Name", "Workzone", "Contact Number", "Mitra"]
  else if mode = "WAPPR" then
    ["Date Created", "Workorder", "SC Order No/Track ID/CSRM No",
     "Service No.", "CRM Order Type", "Status", "Address",
     "Customer Name", "Workzone", "Booking Date", "Contact Number"]
  else []

/-- The transient working columns dropped by `finalize`. -/
def tempColumns : List String :=
  ["Date Created DT", "Date Created Display", "__check_val"]

/-- `utils.reorder_columns`: target columns that exist, in target order,
followed by the remaining columns in their original order. -/
def reorder_columns (df : DataFrame) (target_order : List String) : DataFrame :=
  let existing_cols := target_order.filter (fun c => c ∈ df.cols)
  let remaining_cols := df.cols.filter (fun c => c ∉ target_order)
  df.selectCols (existing_cols ++ remaining_cols)

/-! ### Pure per-stage transforms (`src/data_processor.py`)

`clean_common` mutates one copied frame column by column; each column
assignment below is one `df[col] = …` statement. -/

/-- `df['Booking Date'] = df['Booking Date'].astype(str).str.split('.').str[0]`. -/
def bookingStep (df : DataFrame) : DataFrame :=
  df.mapCol "Booking Date" (fun v => .str (beforeFirst '.' (pyStr v)))

/-- `df['Date Created DT'] = df['Date Created'].apply(parse_date)` (pandas
stores the `None`s of unparsable dates as `NaT`). -/
def dtStep (df : DataFrame) : DataFrame :=
  df.setCol "Date Created DT" (fun r =>
    match parse_date (df.col r "Date Created") with
    | some t => .dt t
    | none => .na)

/-- `df['Date Created Display'] = df['Date Created DT'].apply(λ x:
format_date(x, '%d/%m/%Y %H:%M') if x else '')`; `NaT` is falsy. -/
def displayStep (df : DataFrame) : DataFrame :=
  df.setCol "Date Created Display" (fun r =>
    .str (match df.col r "Date Created DT" with
          | .dt t => format_date (some t) "%d/%m/%Y %H:%M"
          | _ => ""))

/-- `df['Contact Number'] = df['Contact Number'].apply(normalize_phone)`. -/
def contactStep (df : DataFrame) : DataFrame :=
  df.mapCol "Contact Number" (fun v => .str (normalize_phone v))

/-- `df[col_sc] = df[col_sc].apply(λ x: extract_order_id(clean_string(x)))`. -/
def scStep (df : DataFrame) : DataFrame :=
  df.mapCol COL_SC (fun v => .str (extract_order_id (clean_string v false true)))

/-- Case-insensitive `Series.str.contains("p1|p2|…", case=False)` for an
alternation of literal patterns. -/
def matchesAnyCI (pats : List String) (s : String) : Bool :=
  pats.any (fun p => strContains (upperStr s) (upperStr p))

/-- `DataProcessor._fill_contact_number`: build Customer Name → first
non-empty Contact Number (first occurrence wins, via
`drop_duplicates('Customer Name')`), then backfill blank/NaN/"nan" contacts. -/
def buildContactMap (df : DataFrame) : List (Value × Value) :=
  (df.rows.filter fun r =>
      !pyIsna (df.col r "Contact Number") &&
      !(df.col r "Contact Number" == Value.str "")).foldl
    (fun m r =>
      if m.any (fun p => p.1 == df.col r "Customer Name") then m
      else m ++ [(df.col r "Customer Name", df.col r "Contact Number")])
    []

/-- `c_dict.get(k, default)` — `none` when the key is absent. -/
def lookupContact (m : List (Value × Value)) (k : Value) : Option Value :=
  (m.find? (fun p => p.1 == k)).map (fun p => p.2)

/-- The backfilling pass of `_fill_contact_number`. -/
def fill_contact_number (df : DataFrame) : DataFrame :=
  let m := buildContactMap df
  df.setCol "Contact Number" (fun r =>
    let v := df.col r "Contact Number"
    let valS := pyStr v
    if pyIsna v || pyStrip valS == "" || lowerStr valS == "nan" then
      (lookupContact m (df.col r "Customer Name")).getD v
    else v)

/-- `DataProcessor._filter_wsa` (Mode A): pattern filter on the business key,
CRM-order-type allow-list, contact backfill; every column access is guarded. -/
def filter_wsa (df : DataFrame) : DataFrame :=
  let df1 :=
    if COL_SC ∈ df.cols then
      df.filterRows (fun r => matchesAnyCI WSA_patterns (pyStr (df.col r COL_SC)))
    else df
  let df2 :=
    if "CRM Order Type" ∈ df1.cols then
      df1.filterRows (fun r =>
        WSA_crm_order_types.any (fun t => df1.col r "CRM Order Type" == Value.str t))
    else df1
  if "Contact Number" ∈ df2.cols ∧ "Customer Name" ∈ df2.cols then
    fill_contact_number df2
  else df2

/-- `DataProcessor._detect_mo_do`: first configured marker wins, `"MO"` as
the defensive fallback. -/
def detect_mo_do (val : Value) : String :=
  let s := clean_string val true true
  if strContains s "-MO" then "MO"
  else if strContains s "-DO" then "DO"
  else "MO"

/-- `DataProcessor._filter_modoroso` (Mode B). The category recomputation
reads `df[col_sc]` without a guard, so when the business-key column is absent
but `CRM Order Type` is present the code raises `KeyError`. -/
def filter_modoroso (df : DataFrame) : Except String DataFrame :=
  let df1 :=
    if COL_SC ∈ df.cols then
      df.filterRows (fun r => matchesAnyCI MODOROSO_patterns (pyStr (df.col r COL_SC)))
    else df
  if "CRM Order Type" ∈ df1.cols then
    if COL_SC ∈ df1.cols then
      let df2 := df1.setCol "CRM Order Type"
        (fun r => Value.str (detect_mo_do (df1.col r COL_SC)))
      .ok (df2.setCol "Mitra" (fun _ => Value.str MODOROSO_default_mitra))
    else .error "KeyError: SC Order No/Track ID/CSRM No"
  else
    .ok (df1.setCol "Mitra" (fun _ => Value.str MODOROSO_default_mitra))

/-- `DataProcessor._filter_wappr` (Mode C): pattern filter, then keep rows
whose trimmed upper-cased status is in the (upper-cased) status filter. -/
def filter_wappr (df : DataFrame) : DataFrame :=
  let df1 :=
    if COL_SC ∈ df.cols then
      df.filterRows (fun r => matchesAnyCI WAPPR_patterns (pyStr (df.col r COL_SC)))
    else df
  if "Status" ∈ df1.cols then
    df1.filterRows (fun r =>
      (WAPPR_status_filter.map upperStr).contains
        (upperStr (pyStrip (pyStr (df1.col r "Status")))))
  else df1

/-- Month of a parsed-timestamp cell (`Series.dt.month`; `NaT` has none). -/
def monthOf : Value → Option Nat
  | .dt d => some d.month
  | _ => none

/-- The row mask of `filter_by_month`:
`df[df['Date Created DT'].dt.month.isin(months)]` — a null month is never in
the target set. -/
def filterMonthDf (months : List Nat) (df : DataFrame) : DataFrame :=
  df.filterRows (fun r =>
    match monthOf (df.col r "Date Created DT") with
    | some m => months.contains m
    | none => false)

/-- `df['__check_val'] = df[check_col].astype(str).str.strip()`. -/
def addCheckVal (check_col : String) (df : DataFrame) : DataFrame :=
  df.setCol "__check_val" (fun r => .str (pyStrip (pyStr (df.col r check_col))))

/-- `df[~df['__check_val'].isin(existing_ids)]` — a null is never `isin`. -/
def dedupFilter (cleaned : List String) (df : DataFrame) : DataFrame :=
  df.filterRows (fun r =>
    match df.col r "__check_val" with
    | .str v => !(cleaned.contains v)
    | _ => true)

/-- `existing_ids = [clean_string(str(x)) for x in existing_ids]`. -/
def cleanedIds (existing_ids : List String) : List String :=
  existing_ids.map (fun x => clean_string (.str x) false true)

/-- The frame transform of `remove_duplicates` once the check column exists:
clean the existing ids with `clean_string`, compare them against the
*stripped-only* string form of the check column, drop the helper column. -/
def dedupDf (existing_ids : List String) (check_col : String) (df : DataFrame) :
    DataFrame :=
  (dedupFilter (cleanedIds existing_ids) (addCheckVal check_col df)).dropCols
    ["__check_val"]

/-- `df['Date Created'] = df['Date Created Display']`. -/
def dateDisplayAssign (df : DataFrame) : DataFrame :=
  df.setCol "Date Created" (fun r => df.col r "Date Created Display")

/-- The frame transform of `finalize`: reorder to the mode's target columns,
overwrite `Date Created` with its display form, drop the transient working
columns, and sort by `sort_by` when present. -/
def finalizeDf (mode sort_by : String) (df : DataFrame) : DataFrame :=
  let d1 := reorder_columns df (output_columns mode)
  let d2 := if "Date Created Display" ∈ d1.cols then dateDisplayAssign d1 else d1
  let d3 := d2.dropCols tempColumns
  if sort_by ∈ d3.cols then d3.sortByCol sort_by else d3

/-! ### The `DataProcessor` orchestrator over an explicit frame heap

Pandas frames are mutable objects; to make copying visible the orchestrator
state keeps a heap of frames addressed by allocation tags. The caller's frame
lives at tag `0`; `.copy()` and every frame-producing pandas expression
allocate a fresh tag; an in-place column assignment overwrites a tag. The
intermediate frames built *inside* the mode filters and `dedupDf`/`finalizeDf`
are all fresh pandas objects, so they are folded into the pure transforms and
allocated once. -/

/-- `DataProcessor.stats` counters (absent key = `none`). -/
structure Stats where
  raw_rows : Option Nat
  raw_columns : Option Nat
  cleaned_rows : Option Nat
  filtered_rows : Option Nat
  month_filtered_rows : Option Nat
  month_filtered_out : Option Nat
  unique_rows : Option Nat
  duplicates_removed : Option Nat
  final_rows : Option Nat
deriving Repr, DecidableEq

/-- The empty stats dictionary created by `__init__`. -/
def Stats.empty : Stats :=
  ⟨none, none, none, none, none, none, none, none, none⟩

/-- The frame used to pre-populate unallocated heap cells. -/
def emptyDF : DataFrame := ⟨[], []⟩

/-- `DataProcessor` state: mode, frame heap with allocation counter, the three
frame slots (`df_raw`, `df_processed`, `df_final` hold heap tags), stats. -/
structure ProcState where
  mode : String
  heap : Nat → DataFrame
  nextTag : Nat
  dfRaw : Option Nat
  dfProcessed : Option Nat
  dfFinal : Option Nat
  stats : Stats

/-- Read the frame at a tag. -/
def ProcState.read (s : ProcState) (t : Nat) : DataFrame := s.heap t

/-- Allocate a fresh frame (a new pandas object). -/
def ProcState.alloc (s : ProcState) (d : DataFrame) : Nat × ProcState :=
  (s.nextTag,
   { s with
     heap := (fun n => if n = s.nextTag then d else s.heap n)
     nextTag := s.nextTag + 1 })

/-- Overwrite the frame at a tag (in-place mutation). -/
def ProcState.write (s : ProcState) (t : Nat) (d : DataFrame) : ProcState :=
  { s with heap := (fun n => if n = t then d else s.heap n) }

/-- `DataProcessor(mode)` holding the caller's frame at tag `0`. -/
def initProc (mode : String) (callerDf : DataFrame) : ProcState :=
  { mode := upperStr mode
    heap := (fun n => if n = 0 then callerDf else emptyDF)
    nextTag := 1
    dfRaw := none
    dfProcessed := none
    dfFinal := none
    stats := Stats.empty }

/-- `load_data(df)`: store `df.copy()`, record `raw_rows`/`raw_columns`. -/
def load_dataS (s : ProcState) : ProcState :=
  let d := s.read 0
  let (t, s1) := s.alloc d
  { s1 with
    dfRaw := some t
    stats := { s1.stats with
               raw_rows := some d.rows.length
               raw_columns := some d.cols.length } }

/-- `clean_common()`: precondition check, copy `df_raw`, then the column
passes. The `Workorder` pass calls `str.replace(r'\.0$', '', regex=True)` on
each cell's cleaned string — Python's `str.replace` takes no keyword
arguments, so the first cell raises `TypeError`; with zero rows `apply` never
calls the lambda and the pass is harmless. -/
def clean_commonS (s : ProcState) : Except String ProcState :=
  match s.dfRaw with
  | none => .error "Data belum di-load. Panggil load_data() terlebih dahulu."
  | some traw =>
    let (t, s1) := s.alloc (s.read traw)
    if "Workorder" ∈ (s1.read t).cols ∧ (s1.read t).rows ≠ [] then
      .error "TypeError: replace() takes no keyword arguments"
    else
      let s2 := if "Booking Date" ∈ (s1.read t).cols then
          s1.write t (bookingStep (s1.read t)) else s1
      let s3 := if "Date Created" ∈ (s2.read t).cols then
          let sA := s2.write t (dtStep (s2.read t))
          sA.write t (displayStep (sA.read t))
        else s2
      let s4 := if "Contact Number" ∈ (s3.read t).cols then
          s3.write t (contactStep (s3.read t)) else s3
      let s5 := if COL_SC ∈ (s4.read t).cols then
          s4.write t (scStep (s4.read t)) else s4
      .ok { s5 with
            dfProcessed := some t
            stats := { s5.stats with
                       cleaned_rows := some (s5.read t).rows.length } }

/-- `filter_by_mode()`: precondition check, copy, dispatch on the mode
(an unknown mode leaves the copy untouched), record `filtered_rows`. -/
def filter_by_modeS (s : ProcState) : Except String ProcState :=
  match s.dfProcessed with
  | none => .error "Data belum di-clean. Panggil clean_common() terlebih dahulu."
  | some tp =>
    let (t, s1) := s.alloc (s.read tp)
    if s.mode = "WSA" then
      let (t2, s2) := s1.alloc (filter_wsa (s1.read t))
      .ok { s2 with
            dfProcessed := some t2
            stats := { s2.stats with
                       filtered_rows := some (s2.read t2).rows.length } }
    else if s.mode = "MODOROSO" then
      match filter_modoroso (s1.read t) with
      | .error e => .error e
      | .ok d =>
        let (t2, s2) := s1.alloc d
        .ok { s2 with
              dfProcessed := some t2
              stats := { s2.stats with
                         filtered_rows := some (s2.read t2).rows.length } }
    else if s.mode = "WAPPR" then
      let (t2, s2) := s1.alloc (filter_wappr (s1.read t))
      .ok { s2 with
            dfProcessed := some t2
            stats := { s2.stats with
                       filtered_rows := some (s2.read t2).rows.length } }
    else
      .ok { s1 with
            dfProcessed := some t
            stats := { s1.stats with
                       filtered_rows := some (s1.read t).rows.length } }

/-- `filter_by_month(months)`: precondition check; empty month list and a
missing `Date Created DT` column are silent pass-throughs; otherwise copy,
keep rows whose parsed month is targeted, record both counters. -/
def filter_by_monthS (months : List Nat) (s : ProcState) :
    Except String ProcState :=
  match s.dfProcessed with
  | none => .error "Data belum di-filter. Panggil filter_by_mode() terlebih dahulu."
  | some tp =>
    if months = [] then .ok s
    else if "Date Created DT" ∉ (s.read tp).cols then .ok s
    else
      let (t, s1) := s.alloc (s.read tp)
      let (t2, s2) := s1.alloc (filterMonthDf months (s1.read t))
      .ok { s2 with
            dfProcessed := some t2
            stats := { s2.stats with
                       month_filtered_rows := some (s2.read t2).rows.length
                       month_filtered_out :=
                         some ((s1.read t).rows.length -
                               (s2.read t2).rows.length) } }

/-- `remove_duplicates(existing_ids, check_col)`: precondition check; default
check column is the business key for WSA/WAPPR, else `Workorder`; a missing
check column degrades to `df_final = df_processed.copy()` *without recording
the counters*; otherwise copy, dedupe, record both counters. -/
def remove_duplicatesS (existing_ids : List String) (check_col0 : Option String)
    (s : ProcState) : Except String ProcState :=
  match s.dfProcessed with
  | none => .error "Data belum di-filter. Panggil filter_by_mode() terlebih dahulu."
  | some tp =>
    let check_col :=
      match check_col0 with
      | some c => c
      | none => if s.mode = "WSA" ∨ s.mode = "WAPPR" then COL_SC else "Workorder"
    if check_col ∉ (s.read tp).cols then
      let (t, s1) := s.alloc (s.read tp)
      .ok { s1 with dfFinal := some t }
    else
      let (t, s1) := s.alloc (s.read tp)
      let (t2, s2) := s1.alloc (dedupDf existing_ids check_col (s1.read t))
      .ok { s2 with
            dfFinal := some t2
            stats := { s2.stats with
                       unique_rows := some (s2.read t2).rows.length
                       duplicates_removed :=
                         some ((s1.read t).rows.length -
                               (s2.read t2).rows.length) } }

/-- `finalize(sort_by)`: precondition check, copy, apply the finalize frame
transform, record `final_rows`. -/
def finalizeS (sort_by : String) (s : ProcState) : Except String ProcState :=
  match s.dfFinal with
  | none => .error "Data belum di-proses. Panggil method processing terlebih dahulu."
  | some tf =>
    let (t, s1) := s.alloc (s.read tf)
    let (t2, s2) := s1.alloc (finalizeDf s.mode sort_by (s1.read t))
    .ok { s2 with
          dfFinal := some t2
          stats := { s2.stats with
                     final_rows := some (s2.read t2).rows.length } }

/-- `process_all(df, months, existing_ids)`: the whole chained pipeline with
the default check column and default sort key. -/
def process_allS (mode : String) (df : DataFrame) (months : List Nat)
    (existing_ids : List String) : Except String ProcState :=
  match clean_commonS (load_dataS (initProc mode df)) with
  | .error e => .error e
  | .ok s1 =>
    match filter_by_modeS s1 with
    | .error e => .error e
    | .ok s2 =>
      match filter_by_monthS months s2 with
      | .error e => .error e
      | .ok s3 =>
        match remove_duplicatesS existing_ids none s3 with
        | .error e => .error e
        | .ok s4 => finalizeS "Workzone" s4

/-- One pipeline stage invocation, as the caller can issue them in any
order (method chaining enforces nothing). -/
inductive Stage where
  | load : Stage
  | clean : Stage
  | filterMode : Stage
  | filterMonth : List Nat → Stage
  | removeDup : List String → Option String → Stage
  | finalizeStep : String → Stage

/-- Run one stage (`load_data` is always passed the caller's frame, tag 0). -/
def stepStage : Stage → ProcState → Except String ProcState
  | .load, s => .ok (load_dataS s)
  | .clean, s => clean_commonS s
  | .filterMode, s => filter_by_modeS s
  | .filterMonth ms, s => filter_by_monthS ms s
  | .removeDup ids c, s => remove_duplicatesS ids c s
  | .finalizeStep sb, s => finalizeS sb s

/-- Run a stage sequence; a raised error leaves the state as it was. -/
def runStages : List Stage → ProcState → ProcState
  | [], s => s
  | st :: rest, s =>
    match stepStage st s with
    | .ok s2 => runStages rest s2
    | .error _ => s

/-- The rows of the `df_processed` slot (empty when the slot is unset). -/
def processedRows (s : ProcState) : List (List Value) :=
  match s.dfProcessed with
  | some t => (s.heap t).rows
  | none => []

/-- The columns of the `df_processed` slot. -/
def processedCols (s : ProcState) : List String :=
  match s.dfProcessed with
  | some t => (s.heap t).cols
  | none => []

/-- Project the stats out of a pipeline result. -/
def runStats (r : Except String ProcState) : Option Stats :=
  match r with
  | .ok s => some s.stats
  | .error _ => none

/-! ### Quality scoring (`src/quality_checker.py`) -/

/-- `QualityLevel` enumeration. -/
inductive QualityLevel where
  | excellent : QualityLevel
  | good : QualityLevel
  | fair : QualityLevel
  | poor : QualityLevel
  | critical : QualityLevel
deriving Repr, DecidableEq

/-- The `self.scores` dictionary restricted to its five possible keys
(`none` = key absent). Scores are modelled as exact rationals. -/
structure Scores where
  completeness : Option ℚ
  uniqueness : Option ℚ
  consistency : Option ℚ
  validity : Option ℚ
  accuracy : Option ℚ
deriving Repr, DecidableEq

/-- The fixed `weights` dictionary of `_calculate_overall_score`, paired with
the corresponding score slots in iteration order. -/
def Scores.entries (sc : Scores) : List (Option ℚ × ℚ) :=
  [(sc.completeness, 0.25), (sc.uniqueness, 0.25), (sc.consistency, 0.20),
   (sc.validity, 0.20), (sc.accuracy, 0.10)]

/-- `DataQualityChecker._calculate_overall_score`: 0 for an empty scores
dictionary, else the weight-renormalized sum over the metrics present. -/
def calculate_overall_score (sc : Scores) : ℚ :=
  if (Scores.entries sc).all (fun e => e.1.isNone) then 0
  else
    let total_score := (Scores.entries sc).foldl
      (fun acc e => match e.1 with | some v => acc + v * e.2 | none => acc) 0
    let total_weight := (Scores.entries sc).foldl
      (fun acc e => match e.1 with | some _ => acc + e.2 | none => acc) 0
    if total_weight > 0 then total_score / total_weight else 0

/-- `DataQualityChecker._determine_quality_level`. -/
def determine_quality_level (score : ℚ) : QualityLevel :=
  if score ≥ 90 then .excellent
  else if score ≥ 75 then .good
  else if score ≥ 60 then .fair
  else if score ≥ 40 then .poor
  else .critical

/-- The (weight, score) pairs of the metrics present, as the spec describes
them: missing metrics excluded from numerator and denominator alike. -/
def presentWeighted (sc : Scores) : List (ℚ × ℚ) :=
  (Scores.entries sc).filterMap
    (fun e => match e.1 with | some v => some (e.2, v) | none => none)

/-- The spec's weighted mean over the metrics present. -/
def overallScoreSpec (sc : Scores) : ℚ :=
  ((presentWeighted sc).map (fun p => p.1 * p.2)).sum /
    ((presentWeighted sc).map (fun p => p.1)).sum

example : parse_date (.str "2024-01-15 10:30:00") =
    some ⟨2024, 1, 15, 10, 30, 0⟩ := by decide
example : parse_date (.str "invalid date") = none := by decide
example : parse_date (.str " 2024-01-15.0") = some ⟨2024, 1, 15, 0, 0, 0⟩ := by decide
example : parse_date (.str "15/01/2024 07:05") = some ⟨2024, 1, 15, 7, 5, 0⟩ := by decide
example : clean_string (.str "  123.0 ") false true = "123" := by decide
example : clean_string (.str "ao123 ") false true = "ao123" := by decide
example : normalize_phone (.str "08123456789") = "628123456789" := by decide
example : normalize_phone (.str "+62 812-3456-789") = "628123456789" := by decide
example : extract_order_id "ORDER_123_456" = "ORDER" := by decide
example : format_date (some ⟨2024, 1, 15, 10, 30, 0⟩) "%d/%m/%Y %H:%M" = "15/01/2024 10:30" := by decide
example : strContains "AO123" "AO" = true := by decide
example : strContains "OTHER" "AO" = false := by decide


/-- Scenario-1 table: three rows under the business-key and order-category
columns. -/
def c3table : DataFrame :=
  ⟨[COL_SC, "CRM Order Type"],
   [[.str "AO123", .str "CREATE"],
    [.str "OTHER", .str "UPDATE"],
    [.str "PDA456", .str "MIGRATE"]]⟩

/-- Scenario-2 table for Mode B. -/
def c4table : DataFrame :=
  ⟨[COL_SC, "CRM Order Type"],
   [[.str "ORDER-MO-001", .str "CREATE"],
    [.str "ORDER-DO-002", .str "CREATE"],
    [.str "ORDER-REG", .str "CREATE"]]⟩

/-- A processed state whose frame has no parsed-timestamp column. -/
def c7state : ProcState :=
  { mode := "WSA"
    heap := (fun _ => ⟨["A"], [[Value.str "x"]]⟩)
    nextTag := 2
    dfRaw := some 1
    dfProcessed := some 1
    dfFinal := none
    stats := Stats.empty }

/-- Invariant tying a pipeline state to the caller's frame: the caller's
frame (tag 0) is untouched, the allocator never re-issues tag 0, and every
frame slot holds a tag allocated by the pipeline (never the caller's). -/
def HeapSafe (orig : DataFrame) (s : ProcState) : Prop :=
  s.heap 0 = orig ∧ 0 < s.nextTag ∧
  (∀ t, s.dfRaw = some t → 0 < t) ∧
  (∀ t, s.dfProcessed = some t → 0 < t) ∧
  (∀ t, s.dfFinal = some t → 0 < t)

/-! ### Supporting lemmas -/

/-- Assigning an absent column appends it on the right. -/
theorem setCol_not_mem (df : DataFrame) (c : String) (f : List Value → Value)
    (h : c ∉ df.cols) :
    df.setCol c f = ⟨df.cols ++ [c], df.rows.map (fun r => r ++ [f r])⟩ := by
  simp [DataFrame.setCol, h]

/-- Reading the freshly appended column of a well-formed row returns the
appended cell. -/
theorem col_concat (cs : List String) (cv : String) (rs : List (List Value))
    (hnc : cv ∉ cs) (r : List Value) (x : Value) (hr : r.length = cs.length) :
    DataFrame.col ⟨cs ++ [cv], rs⟩ (r ++ [x]) cv = x := by
  unfold DataFrame.col
  have h1 : (cs ++ [cv]).indexOf cv = cs.length := by
    rw [List.indexOf_append_of_not_mem hnc]
    simp
  show (r ++ [x]).getD ((cs ++ [cv]).indexOf cv) Value.na = x
  rw [h1, List.getD_append_right _ _ _ _ (le_of_eq hr), hr]
  simp

/-- C1 (counterexample): the code does not apply the same normalization to
both sides. An existing id "ao123 " is cleaned to "ao123" but the table's
"AO123" only gets stripped, so the row the claim says must be removed is
retained; likewise a table key "123.0" keeps its ".0" while the id side
loses it, so that row also survives. -/
theorem C1_counterexample :
    (dedupDf ["ao123 "] COL_SC ⟨[COL_SC], [[Value.str "AO123"]]⟩).rows =
      [[Value.str "AO123"]] ∧
    (dedupDf ["123.0"] COL_SC ⟨[COL_SC], [[Value.str "123.0"]]⟩).rows =
      [[Value.str "123.0"]] := by
  decide

/-- C1 (amended): for every table and existing-id list, when the check column
exists (and the helper column name is fresh, as it always is for the
pipeline's frames), the dedup stage retains exactly the rows whose check
value, converted with `str()` and *stripped only*, is not among the
existing ids normalized with `clean_string` (strip + drop trailing ".0");
comparison is case-sensitive exact string equality. -/
theorem C1_amended (ids : List String) (df : DataFrame) (c : String)
    (hc : c ∈ df.cols) (hnc : "__check_val" ∉ df.cols) (hwf : df.WF) :
    (dedupDf ids c df).cols = df.cols ∧
    (dedupDf ids c df).rows = df.rows.filter
      (fun r => !((cleanedIds ids).contains (pyStrip (pyStr (df.col r c))))) := by
  obtain ⟨cs, rows⟩ := df
  have hwf' : ∀ r ∈ rows, r.length = cs.length := hwf
  have hext : addCheckVal c ⟨cs, rows⟩ =
      ⟨cs ++ ["__check_val"],
       rows.map (fun r =>
         r ++ [Value.str (pyStrip (pyStr (DataFrame.col ⟨cs, rows⟩ r c)))])⟩ :=
    setCol_not_mem _ _ _ hnc
  set g := fun r : List Value =>
    r ++ [Value.str (pyStrip (pyStr (DataFrame.col ⟨cs, rows⟩ r c)))] with hg
  set q := fun r : List Value =>
    !((cleanedIds ids).contains (pyStrip (pyStr (DataFrame.col ⟨cs, rows⟩ r c))))
    with hq
  have hfilter :
      dedupFilter (cleanedIds ids) (addCheckVal c ⟨cs, rows⟩) =
      ⟨cs ++ ["__check_val"], (rows.filter q).map g⟩ := by
    rw [hext]
    unfold dedupFilter DataFrame.filterRows
    congr 1
    rw [List.filter_map]
    congr 1
    apply List.filter_congr
    intro r hr
    have hcol := col_concat cs "__check_val" (rows.map g) hnc r
      (Value.str (pyStrip (pyStr (DataFrame.col ⟨cs, rows⟩ r c)))) (hwf' r hr)
    simp only [Function.comp, hg]
    rw [hcol]
  unfold dedupDf
  rw [hfilter]
  unfold DataFrame.dropCols
  constructor
  · show (cs ++ ["__check_val"]).filter
        (fun c0 => !(["__check_val"].contains c0)) = cs
    rw [List.filter_append]
    have h2 : cs.filter (fun c0 => !(["__check_val"].contains c0)) = cs := by
      apply List.filter_eq_self.mpr
      intro a ha
      have hne : a ≠ "__check_val" := fun h => hnc (h ▸ ha)
      simp [List.contains, hne]
    rw [h2]
    simp
  · show ((rows.filter q).map g).map
        (fun r => (((cs ++ ["__check_val"]).zip r).filter
          (fun p => !(["__check_val"].contains p.1))).map (fun p => p.2)) =
        rows.filter q
    rw [List.map_map]
    have : ∀ r ∈ rows.filter q,
        ((((cs ++ ["__check_val"]).zip (g r)).filter
          (fun p => !(["__check_val"].contains p.1))).map (fun p => p.2)) = r := by
      intro r hr
      have hrlen : r.length = cs.length := hwf' r (List.mem_of_mem_filter hr)
      have hzip : (cs ++ ["__check_val"]).zip (g r) =
          cs.zip r ++
          [("__check_val",
            Value.str (pyStrip (pyStr (DataFrame.col ⟨cs, rows⟩ r c))))] := by
        simp only [hg]
        rw [List.zip_append hrlen.symm]
        rfl
      rw [hzip, List.filter_append]
      have hkeep : (cs.zip r).filter (fun p => !(["__check_val"].contains p.1)) =
          cs.zip r := by
        apply List.filter_eq_self.mpr
        intro p hp
        have hfst : p.1 ∈ cs := (List.of_mem_zip hp).1
        have hne : p.1 ≠ "__check_val" := fun h => hnc (h ▸ hfst)
        simp [List.contains, hne]
      rw [hkeep]
      have hdrop : ([("__check_val",
          Value.str (pyStrip (pyStr (DataFrame.col ⟨cs, rows⟩ r c))))].filter
            (fun p => !(["__check_val"].contains p.1))) = [] := by
        simp
      rw [hdrop, List.append_nil]
      exact List.map_snd_zip cs r (le_of_eq hrlen)
    calc (rows.filter q).map _ = (rows.filter q).map id := List.map_congr_left this
      _ = rows.filter q := List.map_id _

/-- C1 (witness for the amended theorem): an exactly matching existing id
does remove the row while a non-matching one survives. -/
theorem C1_amended_witness :
    (dedupDf ["AO123"] COL_SC
      ⟨[COL_SC], [[Value.str "AO123"], [Value.str "PDA9"]]⟩).rows =
      [[Value.str "PDA9"]] := by
  have h := C1_amended ["AO123"]
    ⟨[COL_SC], [[Value.str "AO123"], [Value.str "PDA9"]]⟩ COL_SC
    (by decide) (by decide) (by decide)
  rw [h.2]
  decide

/-- C2 (code bug): `clean_common` is not total. Its Workorder pass calls
`clean_string(x).replace(r'\.0$', '', regex=True)` on a plain Python string,
and `str.replace` accepts no `regex` keyword, so the stage raises `TypeError`
for every loaded table that has a `Workorder` column and at least one row —
the repository's own `test_clean_common` expects this call to succeed. -/
theorem C2_workorder_typeerror :
    clean_commonS (load_dataS (initProc "WSA"
        ⟨["Workorder"], [[Value.str "WO001.0"]]⟩)) =
      .error "TypeError: replace() takes no keyword arguments" := rfl


/-- C3 (counterexample): under Mode A the retained rows are *not* the first
two — "OTHER" contains none of the configured codes ("AO", "PDA", "WSA"), so
the second row is dropped at the pattern filter. -/
theorem C3_counterexample :
    processedRows (runStages [.load, .clean, .filterMode]
        (initProc "WSA" c3table)) ≠
      [[Value.str "AO123", Value.str "CREATE"],
       [Value.str "OTHER", Value.str "UPDATE"]] := by
  decide

/-- C3 (amended): Mode A retains the first row ("AO123"/"CREATE", pattern and
category both match) and the *third* row ("PDA456"/"MIGRATE"), drops the
second ("OTHER"/"UPDATE", no pattern code and a disallowed category), and
records `filtered_rows = 2`. -/
theorem C3_amended :
    processedRows (runStages [.load, .clean, .filterMode]
        (initProc "WSA" c3table)) =
      [[Value.str "AO123", Value.str "CREATE"],
       [Value.str "PDA456", Value.str "MIGRATE"]] ∧
    (runStages [.load, .clean, .filterMode]
        (initProc "WSA" c3table)).stats.filtered_rows = some 2 := by
  decide


/-- C4: Mode B retains exactly the first two rows ("ORDER-REG" matches
neither marker), stamps each survivor with `Mitra = "TSEL"`, recomputes the
category to "MO" and "DO" respectively, and — for every identifier — the
first configured marker ("-MO") wins whenever it occurs, in particular when
both markers appear. -/
theorem C4_modoroso :
    (processedRows (runStages [.load, .clean, .filterMode]
        (initProc "MODOROSO" c4table)) =
      [[Value.str "ORDER-MO-001", Value.str "MO", Value.str "TSEL"],
       [Value.str "ORDER-DO-002", Value.str "DO", Value.str "TSEL"]] ∧
     processedCols (runStages [.load, .clean, .filterMode]
        (initProc "MODOROSO" c4table)) = [COL_SC, "CRM Order Type", "Mitra"]) ∧
    (∀ v : Value, strContains (clean_string v true true) "-MO" = true →
      detect_mo_do v = "MO") := by
  refine ⟨by decide, ?_⟩
  intro v h
  unfold detect_mo_do
  simp [h]

/-- C4 (witness): an identifier containing both markers is classified "MO". -/
theorem C4_witness : detect_mo_do (Value.str "X-MO-DO-1") = "MO" :=
  C4_modoroso.2 (Value.str "X-MO-DO-1") (by decide)

/-- C5 (counterexample): `finalize` does not produce the union of the target
column set with the extras — target columns missing from the input are not
added. A one-column input keeps exactly that column; the target column
"Date Created" is absent from the output although the claim requires the
full target set to appear. -/
theorem C5_counterexample :
    (finalizeDf "WSA" "Workzone" ⟨["Foo"], [[Value.str "x"]]⟩).cols = ["Foo"] ∧
    "Date Created" ∉
      (finalizeDf "WSA" "Workzone" ⟨["Foo"], [[Value.str "x"]]⟩).cols := by
  decide

/-- Membership in the reordered columns is membership in the original ones. -/
theorem mem_reorder_cols (df : DataFrame) (target : List String) (c : String) :
    c ∈ (reorder_columns df target).cols ↔ c ∈ df.cols := by
  unfold reorder_columns DataFrame.selectCols
  simp only [List.mem_append, List.mem_filter]
  constructor
  · rintro (⟨-, h⟩ | ⟨h, -⟩)
    · exact of_decide_eq_true h
    · exact h
  · intro h
    by_cases ht : c ∈ target
    · exact Or.inl ⟨ht, decide_eq_true h⟩
    · exact Or.inr ⟨h, decide_eq_true ht⟩

/-- No transient working column appears in any mode's target column list. -/
theorem target_temp_disjoint (mode : String) :
    ∀ c ∈ output_columns mode, c ∉ tempColumns := by
  unfold output_columns
  split_ifs <;> decide

/-- C5 (amended): the output columns of `finalize` are the target columns
*present in the input*, first and in the fixed configured order, followed by
the remaining input columns in their original relative order with the
transient working columns removed. (The hypothesis reflects the pipeline
frames: a display column only ever exists alongside `Date Created`.) -/
theorem C5_amended (mode sort_by : String) (df : DataFrame)
    (hdc : "Date Created Display" ∈ df.cols → "Date Created" ∈ df.cols) :
    (finalizeDf mode sort_by df).cols =
      (output_columns mode).filter (fun c => c ∈ df.cols) ++
      df.cols.filter (fun c => c ∉ output_columns mode ∧ c ∉ tempColumns) := by
  unfold finalizeDf
  set d1 := reorder_columns df (output_columns mode) with hd1
  have hd1cols : d1.cols =
      (output_columns mode).filter (fun c => c ∈ df.cols) ++
      df.cols.filter (fun c => c ∉ output_columns mode) := rfl
  have hd2 : (if "Date Created Display" ∈ d1.cols then dateDisplayAssign d1
      else d1).cols = d1.cols := by
    split_ifs with hmem
    · unfold dateDisplayAssign DataFrame.setCol
      have hdisp : "Date Created Display" ∈ df.cols :=
        (mem_reorder_cols df (output_columns mode) _).mp hmem
      have hdcmem : "Date Created" ∈ d1.cols :=
        (mem_reorder_cols df (output_columns mode) _).mpr (hdc hdisp)
      simp [hdcmem]
    · rfl
  set d2 := if "Date Created Display" ∈ d1.cols then dateDisplayAssign d1
    else d1 with hd2def
  have hd3 : (d2.dropCols tempColumns).cols =
      (output_columns mode).filter (fun c => c ∈ df.cols) ++
      df.cols.filter (fun c => c ∉ output_columns mode ∧ c ∉ tempColumns) := by
    show d2.cols.filter (fun c => !tempColumns.contains c) = _
    rw [hd2, hd1cols, List.filter_append]
    congr 1
    · apply List.filter_eq_self.mpr
      intro a ha
      have hmem : a ∈ output_columns mode := (List.mem_filter.mp ha).1
      have := target_temp_disjoint mode a hmem
      simp [List.contains, this]
    · rw [List.filter_filter]
      apply List.filter_congr
      intro a _
      by_cases h1 : a ∈ output_columns mode <;>
        by_cases h2 : a ∈ tempColumns <;>
        simp [List.contains, h1, h2]
  have hsort : ∀ e : DataFrame, ∀ sb : String,
      (if sb ∈ e.cols then e.sortByCol sb else e).cols = e.cols := by
    intro e sb
    split_ifs <;> rfl
  rw [hsort (d2.dropCols tempColumns) sort_by]
  exact hd3

/-- C5 (witness for the amended theorem): a frame with one target column, one
extra column and one transient column keeps the target and the extra. -/
theorem C5_amended_witness :
    (finalizeDf "WSA" "Workzone"
      ⟨["Workorder", "Zulu", "Date Created DT"], []⟩).cols =
      ["Workorder", "Zulu"] := by
  have h := C5_amended "WSA" "Workzone"
    ⟨["Workorder", "Zulu", "Date Created DT"], []⟩ (by decide)
  rw [h]
  decide

set_option maxHeartbeats 1600000 in
/-- C6: the overall quality score is the weighted mean with the fixed weights
{completeness 0.25, uniqueness 0.25, consistency 0.20, validity 0.20,
accuracy 0.10}, where missing metrics are excluded from numerator and
denominator alike (re-normalized weighting); and the quality level is
excellent iff score ≥ 90, good iff 75 ≤ score < 90, fair iff 60 ≤ score < 75,
poor iff 40 ≤ score < 60, critical otherwise. -/
theorem C6_score_and_level (sc : Scores) (score : ℚ)
    (h : ¬(sc.completeness = none ∧ sc.uniqueness = none ∧
           sc.consistency = none ∧ sc.validity = none ∧ sc.accuracy = none)) :
    calculate_overall_score sc = overallScoreSpec sc ∧
    ((determine_quality_level score = .excellent ↔ 90 ≤ score) ∧
     (determine_quality_level score = .good ↔ 75 ≤ score ∧ score < 90) ∧
     (determine_quality_level score = .fair ↔ 60 ≤ score ∧ score < 75) ∧
     (determine_quality_level score = .poor ↔ 40 ≤ score ∧ score < 60) ∧
     (determine_quality_level score = .critical ↔ score < 40)) := by
  constructor
  · obtain ⟨c, u, co, v, a⟩ := sc
    rcases c with _ | c <;> rcases u with _ | u <;> rcases co with _ | co <;>
      rcases v with _ | v <;> rcases a with _ | a
    · exact absurd ⟨rfl, rfl, rfl, rfl, rfl⟩ h
    all_goals
      simp only [calculate_overall_score, Scores.entries, overallScoreSpec,
        presentWeighted, List.all_cons, List.all_nil, Option.isNone_some,
        Option.isNone_none, Bool.and_true, Bool.and_false, Bool.false_and,
        Bool.true_and, Bool.and_self, if_true, if_false, List.foldl,
        List.filterMap, List.map, List.sum_cons, List.sum_nil,
        Bool.false_eq_true]
    all_goals norm_num
    all_goals ring_nf
  · unfold determine_quality_level
    split_ifs with h1 h2 h3 h4 <;>
      refine ⟨?_, ?_, ?_, ?_, ?_⟩ <;>
      simp only [iff_true, iff_false, true_iff, false_iff, not_and, not_lt,
        not_le, reduceCtorEq] <;>
      first
        | rfl
        | linarith
        | (intro hx; linarith)
        | (exact ⟨by linarith, by linarith⟩)

/-- C6 (witness): with completeness 80 and consistency 100 present, the
overall score is the spec's renormalized weighted mean. -/
theorem C6_witness :
    calculate_overall_score ⟨some 80, none, some 100, none, none⟩ =
      overallScoreSpec ⟨some 80, none, some 100, none, none⟩ :=
  (C6_score_and_level ⟨some 80, none, some 100, none, none⟩ 95 (by decide)).1


/-- C7 (counterexample): with a non-empty target set and no parsed-timestamp
column, the stage passes the one row through unchanged (and records nothing),
whereas the claim requires a row with no (null) parsed timestamp to be
dropped. -/
theorem C7_counterexample :
    filter_by_monthS [1] c7state = .ok c7state ∧
    processedRows c7state = [[Value.str "x"]] := ⟨rfl, rfl⟩

/-- C7 (amended): the period filter is a pass-through when the target month
set is empty; when the target set is non-empty it is *also* a pass-through if
the parsed-timestamp column is absent (recording nothing); otherwise it
retains exactly the rows whose parsed month is in the target set, drops rows
with a null timestamp, and records the surviving count and the removed
count. -/
theorem C7_amended (months : List Nat) (s : ProcState) (t : Nat)
    (hp : s.dfProcessed = some t) :
    (filter_by_monthS [] s = .ok s) ∧
    (months ≠ [] → "Date Created DT" ∉ (s.heap t).cols →
      filter_by_monthS months s = .ok s) ∧
    (months ≠ [] → "Date Created DT" ∈ (s.heap t).cols →
      ∃ s2, filter_by_monthS months s = .ok s2 ∧
        processedRows s2 = (s.heap t).rows.filter (fun r =>
          match (s.heap t).col r "Date Created DT" with
          | .dt d => months.contains d.month
          | _ => false) ∧
        s2.stats.month_filtered_rows = some (processedRows s2).length ∧
        s2.stats.month_filtered_out =
          some ((s.heap t).rows.length - (processedRows s2).length)) := by
  obtain ⟨mo, hheap, nt, raw, proc, fin, st⟩ := s
  simp only at hp
  subst hp
  refine ⟨?_, ?_, ?_⟩
  · rfl
  · intro hm hdt
    simp only [filter_by_monthS, ProcState.read]
    rw [if_neg hm, if_pos hdt]
  · intro hm hdt
    have hpred : ∀ df : DataFrame, filterMonthDf months df =
        df.filterRows (fun r =>
          match df.col r "Date Created DT" with
          | .dt d => months.contains d.month
          | _ => false) := by
      intro df
      unfold filterMonthDf DataFrame.filterRows
      congr 1
      apply List.filter_congr
      intro r _
      cases df.col r "Date Created DT" <;> simp [monthOf]
    simp only [filter_by_monthS, ProcState.read]
    rw [if_neg hm, if_neg (not_not_intro hdt)]
    refine ⟨_, rfl, ?_, ?_, ?_⟩
    · simp only [processedRows, ProcState.read, ProcState.alloc]
      simp only [if_pos]
      rw [hpred]
      simp [DataFrame.filterRows]
    · simp [processedRows]
    · simp [processedRows, ProcState.read, ProcState.alloc]

/-- C7 (witness for the amended theorem): the pass-through branches at the
state used above, with every hypothesis discharged concretely. -/
theorem C7_amended_witness :
    filter_by_monthS [1] c7state = .ok c7state :=
  (C7_amended [1] c7state 1 rfl).2.1 (by decide) (by decide)

/-- C9 (counterexample): the period filter invoked directly after cleaning —
its prerequisite `filter_by_mode` never ran — proceeds without raising,
because the stage checks only that `df_processed` is set, which
`clean_common` already did. -/
theorem C9_counterexample :
    (clean_commonS (load_dataS (initProc "WSA" ⟨["A"], [[Value.str "x"]]⟩)) >>=
      filter_by_monthS [1]).isOk = true := rfl

/-- C9 (amended): each stage raises `ValueError` with a diagnostic naming a
prerequisite stage whenever the frame slot it reads is unset — cleaning
before loading names `load_data`, mode-filtering before cleaning names
`clean_common`, the period filter and the deduplicator name
`filter_by_mode`, finalize names the processing methods — but a stage whose
slot was already set by an *earlier* stage proceeds even when its immediate
prerequisite has not run (the checks test frame presence, not stage
completion). -/
theorem C9_amended (s : ProcState) :
    (s.dfRaw = none → clean_commonS s =
      .error "Data belum di-load. Panggil load_data() terlebih dahulu.") ∧
    (s.dfProcessed = none → filter_by_modeS s =
      .error "Data belum di-clean. Panggil clean_common() terlebih dahulu.") ∧
    (∀ months, s.dfProcessed = none → filter_by_monthS months s =
      .error "Data belum di-filter. Panggil filter_by_mode() terlebih dahulu.") ∧
    (∀ ids c0, s.dfProcessed = none → remove_duplicatesS ids c0 s =
      .error "Data belum di-filter. Panggil filter_by_mode() terlebih dahulu.") ∧
    (∀ sb, s.dfFinal = none → finalizeS sb s =
      .error "Data belum di-proses. Panggil method processing terlebih dahulu.") := by
  refine ⟨?_, ?_, ?_, ?_, ?_⟩
  · intro h
    simp [clean_commonS, h]
  · intro h
    simp [filter_by_modeS, h]
  · intro months h
    simp [filter_by_monthS, h]
  · intro ids c0 h
    simp [remove_duplicatesS, h]
  · intro sb h
    simp [finalizeS, h]

/-- C9 (witness for the amended theorem): cleaning a freshly constructed
processor raises the load-data diagnostic. -/
theorem C9_amended_witness :
    clean_commonS (initProc "WSA" emptyDF) =
      .error "Data belum di-load. Panggil load_data() terlebih dahulu." :=
  (C9_amended (initProc "WSA" emptyDF)).1 rfl


/-- Allocation never touches the caller's frame. -/
theorem alloc_heap_zero (s : ProcState) (d : DataFrame) (h : 0 < s.nextTag) :
    (s.alloc d).2.heap 0 = s.heap 0 := by
  have hne : ¬ ((0 : Nat) = s.nextTag) := by omega
  simp [ProcState.alloc, hne]

/-- An in-place write at a pipeline-allocated tag never touches the caller's
frame. -/
theorem write_heap_zero (s : ProcState) (t : Nat) (d : DataFrame) (h : t ≠ 0) :
    (s.write t d).heap 0 = s.heap 0 := by
  have hne : ¬ ((0 : Nat) = t) := fun hh => h hh.symm
  simp [ProcState.write, hne]

/-- `load_data` preserves heap safety. -/
theorem load_heapSafe (orig : DataFrame) (s : ProcState) (h : HeapSafe orig s) :
    HeapSafe orig (load_dataS s) := by
  obtain ⟨h0, hn, hr, hp, hf⟩ := h
  refine ⟨?_, ?_, ?_, ?_, ?_⟩
  · show (s.alloc (s.read 0)).2.heap 0 = orig
    rw [alloc_heap_zero _ _ hn, h0]
  · show 0 < (s.alloc (s.read 0)).2.nextTag
    simp [ProcState.alloc]
  · intro t ht
    simp only [load_dataS, ProcState.alloc, Option.some_inj] at ht
    omega
  · intro t ht
    exact hp t ht
  · intro t ht
    exact hf t ht

/-- `clean_common` preserves heap safety: it copies `df_raw` into a fresh
frame and performs its in-place column writes only on that fresh frame. -/
theorem clean_heapSafe (orig : DataFrame) (s s2 : ProcState) (h : HeapSafe orig s)
    (hstep : clean_commonS s = .ok s2) : HeapSafe orig s2 := by
  obtain ⟨h0, hn, hr, hp, hf⟩ := h
  have hne : ¬ ((0 : Nat) = s.nextTag) := by omega
  cases hraw : s.dfRaw with
  | none =>
    rw [clean_commonS, hraw] at hstep
    cases hstep
  | some traw =>
    rw [clean_commonS, hraw] at hstep
    simp only at hstep
    split at hstep
    · cases hstep
    · split at hstep <;> split at hstep <;> split at hstep <;> split at hstep <;>
        (cases hstep;
         refine ⟨?_, ?_, ?_, ?_, ?_⟩ <;>
           simp [ProcState.write, ProcState.alloc, hne, h0] <;>
           first
             | omega
             | (intro t ht; omega)
             | (intro t ht; exact hr t ht)
             | (intro t ht; exact hf t ht))

/-- `filter_by_mode` preserves heap safety. -/
theorem mode_heapSafe (orig : DataFrame) (s s2 : ProcState) (h : HeapSafe orig s)
    (hstep : filter_by_modeS s = .ok s2) : HeapSafe orig s2 := by
  obtain ⟨h0, hn, hr, hp, hf⟩ := h
  have hne : ¬ ((0 : Nat) = s.nextTag) := by omega
  cases hproc : s.dfProcessed with
  | none =>
    rw [filter_by_modeS, hproc] at hstep
    cases hstep
  | some tp =>
    rw [filter_by_modeS, hproc] at hstep
    simp only at hstep
    split at hstep <;>
      [skip; split at hstep] <;>
      [skip; split at hstep; skip] <;>
      [skip; skip; cases hstep; split at hstep] <;>
      (try cases hstep) <;>
      (refine ⟨?_, ?_, ?_, ?_, ?_⟩ <;>
        simp [ProcState.write, ProcState.alloc, hne, h0] <;>
        first
          | omega
          | (intro t ht; omega)
          | (intro t ht; exact hr t ht)
          | (intro t ht; exact hf t ht))

/-- `filter_by_month` preserves heap safety. -/
theorem month_heapSafe (orig : DataFrame) (months : List Nat) (s s2 : ProcState)
    (h : HeapSafe orig s) (hstep : filter_by_monthS months s = .ok s2) :
    HeapSafe orig s2 := by
  obtain ⟨h0, hn, hr, hp, hf⟩ := h
  have hne : ¬ ((0 : Nat) = s.nextTag) := by omega
  cases hproc : s.dfProcessed with
  | none =>
    rw [filter_by_monthS, hproc] at hstep
    cases hstep
  | some tp =>
    rw [filter_by_monthS, hproc] at hstep
    simp only at hstep
    split at hstep <;>
      [skip; split at hstep] <;>
      (cases hstep) <;>
      (refine ⟨?_, ?_, ?_, ?_, ?_⟩ <;>
        first
          | exact h0
          | omega
          | (intro t ht; exact hr t ht)
          | (intro t ht; exact hp t ht)
          | (intro t ht; exact hf t ht)
          | (simp [ProcState.write, ProcState.alloc, hne, h0] <;>
             first
               | omega
               | (intro t ht; omega)
               | (intro t ht; exact hr t ht)))

/-- `remove_duplicates` preserves heap safety. -/
theorem dedup_heapSafe (orig : DataFrame) (ids : List String)
    (c0 : Option String) (s s2 : ProcState)
    (h : HeapSafe orig s) (hstep : remove_duplicatesS ids c0 s = .ok s2) :
    HeapSafe orig s2 := by
  obtain ⟨h0, hn, hr, hp, hf⟩ := h
  have hne : ¬ ((0 : Nat) = s.nextTag) := by omega
  cases hproc : s.dfProcessed with
  | none =>
    rw [remove_duplicatesS.eq_def, hproc] at hstep
    cases hstep
  | some tp =>
    rw [remove_duplicatesS.eq_def, hproc] at hstep
    simp only at hstep
    split at hstep <;>
      (try split at hstep) <;>
      (try split at hstep) <;>
      (cases hstep) <;>
      (refine ⟨?_, ?_, ?_, ?_, ?_⟩ <;>
        simp [ProcState.write, ProcState.alloc, hne, h0] <;>
        first
          | omega
          | (intro t ht; omega)
          | (intro t ht; exact hr t ht)
          | (intro t ht; exact hp t ht))

/-- `finalize` preserves heap safety. -/
theorem finalize_heapSafe (orig : DataFrame) (sb : String) (s s2 : ProcState)
    (h : HeapSafe orig s) (hstep : finalizeS sb s = .ok s2) :
    HeapSafe orig s2 := by
  obtain ⟨h0, hn, hr, hp, hf⟩ := h
  have hne : ¬ ((0 : Nat) = s.nextTag) := by omega
  cases hfin : s.dfFinal with
  | none =>
    rw [finalizeS, hfin] at hstep
    cases hstep
  | some tf =>
    rw [finalizeS, hfin] at hstep
    simp only at hstep
    cases hstep
    refine ⟨?_, ?_, ?_, ?_, ?_⟩ <;>
      simp [ProcState.write, ProcState.alloc, hne, h0] <;>
      first
        | omega
        | (intro t ht; omega)
        | (intro t ht; exact hr t ht)
        | (intro t ht; exact hp t ht)

/-- One stage preserves heap safety. -/
theorem step_heapSafe (orig : DataFrame) (st : Stage) (s s2 : ProcState)
    (h : HeapSafe orig s) (hstep : stepStage st s = .ok s2) : HeapSafe orig s2 := by
  cases st with
  | load =>
    cases hstep
    exact load_heapSafe orig s h
  | clean => exact clean_heapSafe orig s s2 h hstep
  | filterMode => exact mode_heapSafe orig s s2 h hstep
  | filterMonth ms => exact month_heapSafe orig ms s s2 h hstep
  | removeDup ids c0 => exact dedup_heapSafe orig ids c0 s s2 h hstep
  | finalizeStep sb => exact finalize_heapSafe orig sb s s2 h hstep

/-- C10: no sequence of stage invocations ever mutates the caller's frame:
`load_data` stores a copy and every stage works on further copies or on
frames it freshly allocated, so the frame the caller passed in (tag 0) is
unchanged after running any stage list from a fresh `DataProcessor`. -/
theorem C10_caller_frame_unchanged (prog : List Stage) (mode : String)
    (df : DataFrame) :
    (runStages prog (initProc mode df)).heap 0 = df := by
  have hinit : HeapSafe df (initProc mode df) := by
    refine ⟨rfl, ?_, ?_, ?_, ?_⟩ <;> simp [initProc]
  suffices hgen : ∀ (p : List Stage) (s : ProcState), HeapSafe df s →
      (runStages p s).heap 0 = df by
    exact hgen prog _ hinit
  intro p
  induction p with
  | nil =>
    intro s hs
    exact hs.1
  | cons st rest ih =>
    intro s hs
    rw [runStages]
    cases hst : stepStage st s with
    | ok s3 => exact ih s3 (step_heapSafe df st s s3 hs hst)
    | error e => exact hs.1

/-- Column assignment never changes the row count. -/
@[simp] theorem setCol_length (df : DataFrame) (c : String) (f : List Value → Value) :
    ((df.setCol c f)).rows.length = df.rows.length := by
  unfold DataFrame.setCol
  split <;> simp

@[simp] theorem mapCol_length (df : DataFrame) (c : String) (g : Value → Value) :
    ((df.mapCol c g)).rows.length = df.rows.length := setCol_length _ _ _

/-- A boolean-mask filter never grows the table. -/
theorem filterRows_le (df : DataFrame) (p : List Value → Bool) :
    (df.filterRows p).rows.length ≤ df.rows.length :=
  List.length_filter_le _ _

@[simp] theorem selectCols_length (df : DataFrame) (cs : List String) :
    (df.selectCols cs).rows.length = df.rows.length := by
  simp [DataFrame.selectCols]

@[simp] theorem dropCols_length (df : DataFrame) (cs : List String) :
    (df.dropCols cs).rows.length = df.rows.length := by
  simp [DataFrame.dropCols]

@[simp] theorem sortByCol_length (df : DataFrame) (c : String) :
    (df.sortByCol c).rows.length = df.rows.length := by
  simp [DataFrame.sortByCol]

@[simp] theorem bookingStep_length (df : DataFrame) :
    (bookingStep df).rows.length = df.rows.length := mapCol_length _ _ _

@[simp] theorem dtStep_length (df : DataFrame) :
    (dtStep df).rows.length = df.rows.length := setCol_length _ _ _

@[simp] theorem displayStep_length (df : DataFrame) :
    (displayStep df).rows.length = df.rows.length := setCol_length _ _ _

@[simp] theorem contactStep_length (df : DataFrame) :
    (contactStep df).rows.length = df.rows.length := mapCol_length _ _ _

@[simp] theorem scStep_length (df : DataFrame) :
    (scStep df).rows.length = df.rows.length := mapCol_length _ _ _

@[simp] theorem fill_contact_length (df : DataFrame) :
    (fill_contact_number df).rows.length = df.rows.length := setCol_length _ _ _

/-- A guarded contact backfill keeps the row count. -/
@[simp] theorem ite_fill_length (c : Prop) [Decidable c] (e : DataFrame) :
    (if c then fill_contact_number e else e).rows.length = e.rows.length := by
  split_ifs <;> simp

/-- A guarded row filter never grows the table. -/
theorem ite_filter_le (c : Prop) [Decidable c] (e : DataFrame)
    (p : List Value → Bool) :
    (if c then e.filterRows p else e).rows.length ≤ e.rows.length := by
  split_ifs
  · exact filterRows_le _ _
  · exact le_refl _

/-- Mode A filtering never grows the table. -/
theorem filter_wsa_le (df : DataFrame) :
    (filter_wsa df).rows.length ≤ df.rows.length := by
  unfold filter_wsa
  rw [ite_fill_length]
  exact le_trans (ite_filter_le _ _ _) (ite_filter_le _ _ _)

/-- Mode C filtering never grows the table. -/
theorem filter_wappr_le (df : DataFrame) :
    (filter_wappr df).rows.length ≤ df.rows.length := by
  unfold filter_wappr
  exact le_trans (ite_filter_le _ _ _) (ite_filter_le _ _ _)

/-- The month mask never grows the table. -/
theorem filterMonthDf_le (months : List Nat) (df : DataFrame) :
    (filterMonthDf months df).rows.length ≤ df.rows.length :=
  filterRows_le _ _

/-- Deduplication never grows the table. -/
theorem dedupDf_le (ids : List String) (c : String) (df : DataFrame) :
    (dedupDf ids c df).rows.length ≤ df.rows.length := by
  unfold dedupDf
  calc ((dedupFilter (cleanedIds ids) (addCheckVal c df)).dropCols
          ["__check_val"]).rows.length
      = (dedupFilter (cleanedIds ids) (addCheckVal c df)).rows.length :=
        dropCols_length _ _
    _ ≤ (addCheckVal c df).rows.length := filterRows_le _ _
    _ = df.rows.length := setCol_length _ _ _

/-- Finalization keeps the row count. -/
theorem finalizeDf_length (mode sb : String) (df : DataFrame) :
    (finalizeDf mode sb df).rows.length = df.rows.length := by
  have h2 : ∀ (c : Prop) [Decidable c] (e : DataFrame),
      (if c then dateDisplayAssign e else e).rows.length = e.rows.length := by
    intro c _ e
    split_ifs <;> simp [dateDisplayAssign]
  have h3 : ∀ (c : Prop) [Decidable c] (e : DataFrame) (sb2 : String),
      (if c then e.sortByCol sb2 else e).rows.length = e.rows.length := by
    intro c _ e sb2
    split_ifs <;> simp
  unfold finalizeDf
  rw [h3, dropCols_length, h2]
  exact selectCols_length _ _

/-- What a successful `clean_common` guarantees: the mode and the other
counters are untouched, `cleaned_rows` records the row count of the new
`df_processed` frame, and that count equals the raw frame's row count. -/
theorem clean_spec (s s2 : ProcState) (tr : Nat) (hraw : s.dfRaw = some tr)
    (hstep : clean_commonS s = .ok s2) :
    s2.mode = s.mode ∧
    s2.stats.raw_rows = s.stats.raw_rows ∧
    s2.stats.unique_rows = s.stats.unique_rows ∧
    s2.stats.final_rows = s.stats.final_rows ∧
    ∃ tp, s2.dfProcessed = some tp ∧
      s2.stats.cleaned_rows = some ((s2.heap tp).rows.length) ∧
      (s2.heap tp).rows.length = (s.heap tr).rows.length := by
  rw [clean_commonS, hraw] at hstep
  simp only at hstep
  split at hstep
  · cases hstep
  · split at hstep <;> split at hstep <;> split at hstep <;> split at hstep <;>
      (cases hstep;
       refine ⟨rfl, rfl, rfl, rfl, s.nextTag, rfl, rfl, ?_⟩ <;>
         simp [ProcState.write, ProcState.alloc, ProcState.read])

/-- What a successful `filter_by_mode` guarantees under Mode A or Mode C:
the other counters are untouched, `filtered_rows` records the row count of
the new `df_processed` frame, which is no larger than before. -/
theorem mode_spec (s s2 : ProcState) (tp : Nat) (hproc : s.dfProcessed = some tp)
    (hmode : s.mode = "WSA" ∨ s.mode = "WAPPR")
    (hstep : filter_by_modeS s = .ok s2) :
    s2.mode = s.mode ∧
    s2.stats.raw_rows = s.stats.raw_rows ∧
    s2.stats.cleaned_rows = s.stats.cleaned_rows ∧
    s2.stats.unique_rows = s.stats.unique_rows ∧
    s2.stats.final_rows = s.stats.final_rows ∧
    ∃ tq, s2.dfProcessed = some tq ∧
      s2.stats.filtered_rows = some ((s2.heap tq).rows.length) ∧
      (s2.heap tq).rows.length ≤ (s.heap tp).rows.length := by
  rw [filter_by_modeS, hproc] at hstep
  rcases hmode with hm | hm <;>
    rw [hm] at hstep <;>
    simp only [reduceIte] at hstep <;>
    (cases hstep;
     refine ⟨rfl, rfl, rfl, rfl, rfl, s.nextTag + 1, rfl, rfl, ?_⟩) <;>
    simp only [ProcState.alloc, ProcState.read] <;>
    simp only [show s.nextTag + 1 = s.nextTag + 1 from rfl, if_pos]
  · show (filter_wsa _).rows.length ≤ _
    have h := filter_wsa_le ((fun n => if n = s.nextTag then s.heap tp
      else s.heap n) s.nextTag)
    simpa using h
  · show (filter_wappr _).rows.length ≤ _
    have h := filter_wappr_le ((fun n => if n = s.nextTag then s.heap tp
      else s.heap n) s.nextTag)
    simpa using h

/-- What a successful `filter_by_month` guarantees: the mode and the five
chain counters are untouched and the `df_processed` frame does not grow. -/
theorem month_spec (months : List Nat) (s s2 : ProcState) (tp : Nat)
    (hproc : s.dfProcessed = some tp)
    (hstep : filter_by_monthS months s = .ok s2) :
    s2.mode = s.mode ∧
    s2.stats.raw_rows = s.stats.raw_rows ∧
    s2.stats.cleaned_rows = s.stats.cleaned_rows ∧
    s2.stats.filtered_rows = s.stats.filtered_rows ∧
    s2.stats.unique_rows = s.stats.unique_rows ∧
    s2.stats.final_rows = s.stats.final_rows ∧
    ∃ tq, s2.dfProcessed = some tq ∧
      (s2.heap tq).rows.length ≤ (s.heap tp).rows.length := by
  rw [filter_by_monthS, hproc] at hstep
  simp only at hstep
  split at hstep
  · cases hstep
    exact ⟨rfl, rfl, rfl, rfl, rfl, rfl, tp, hproc, le_refl _⟩
  · split at hstep
    · cases hstep
      exact ⟨rfl, rfl, rfl, rfl, rfl, rfl, tp, hproc, le_refl _⟩
    · cases hstep
      refine ⟨rfl, rfl, rfl, rfl, rfl, rfl, s.nextTag + 1, rfl, ?_⟩
      simp only [ProcState.alloc, ProcState.read, if_pos]
      have h := filterMonthDf_le months ((fun n => if n = s.nextTag then s.heap tp
        else s.heap n) s.nextTag)
      simpa using h

/-- What a successful `remove_duplicates` guarantees: mode and the upstream
counters are untouched; either the check column was missing (the unique/final
counters keep their previous values) or `unique_rows` records the row count
of the new `df_final` frame, which is no larger than `df_processed`. -/
theorem dedup_spec (ids : List String) (c0 : Option String) (s s2 : ProcState)
    (tp : Nat) (hproc : s.dfProcessed = some tp)
    (hstep : remove_duplicatesS ids c0 s = .ok s2) :
    s2.mode = s.mode ∧
    s2.stats.raw_rows = s.stats.raw_rows ∧
    s2.stats.cleaned_rows = s.stats.cleaned_rows ∧
    s2.stats.filtered_rows = s.stats.filtered_rows ∧
    ((s2.stats.unique_rows = s.stats.unique_rows ∧
      s2.stats.final_rows = s.stats.final_rows) ∨
     (s2.stats.final_rows = s.stats.final_rows ∧
      ∃ tf, s2.dfFinal = some tf ∧
        s2.stats.unique_rows = some ((s2.heap tf).rows.length) ∧
        (s2.heap tf).rows.length ≤ (s.heap tp).rows.length)) := by
  rw [remove_duplicatesS.eq_def, hproc] at hstep
  simp only at hstep
  split at hstep <;>
    (try split at hstep) <;>
    (try split at hstep) <;>
    cases hstep <;>
    refine ⟨rfl, rfl, rfl, rfl, ?_⟩ <;>
    first
      | exact Or.inl ⟨rfl, rfl⟩
      | (refine Or.inr ⟨rfl, s.nextTag + 1, rfl, rfl, ?_⟩
         simp only [ProcState.alloc, ProcState.read, if_pos]
         first
           | (have h := dedupDf_le ids COL_SC ((fun n => if n = s.nextTag
                then s.heap tp else s.heap n) s.nextTag)
              simpa using h)
           | (have h := dedupDf_le ids "Workorder" ((fun n => if n = s.nextTag
                then s.heap tp else s.heap n) s.nextTag)
              simpa using h)
           | (rename_i c hc
              have h := dedupDf_le ids c ((fun n => if n = s.nextTag
                then s.heap tp else s.heap n) s.nextTag)
              simpa using h))

/-- What a successful `finalize` guarantees: the upstream counters are
untouched and `final_rows` records exactly the row count of the previous
`df_final` frame (finalization only reorders, rewrites and sorts). -/
theorem finalize_spec (sb : String) (s s2 : ProcState) (tf : Nat)
    (hfin : s.dfFinal = some tf) (hstep : finalizeS sb s = .ok s2) :
    s2.stats.raw_rows = s.stats.raw_rows ∧
    s2.stats.cleaned_rows = s.stats.cleaned_rows ∧
    s2.stats.filtered_rows = s.stats.filtered_rows ∧
    s2.stats.unique_rows = s.stats.unique_rows ∧
    s2.stats.final_rows = some ((s.heap tf).rows.length) := by
  rw [finalizeS, hfin] at hstep
  simp only at hstep
  cases hstep
  refine ⟨rfl, rfl, rfl, rfl, ?_⟩
  simp only [ProcState.alloc, ProcState.read, if_pos]
  have h := finalizeDf_length s.mode sb ((fun n => if n = s.nextTag
    then s.heap tf else s.heap n) s.nextTag)
  simpa using h

/-- C8: for every complete Mode A ("WSA") or Mode C ("WAPPR") `process_all`
run in which all five chain counters were recorded, the recorded statistics
satisfy `final_rows ≤ unique_rows ≤ filtered_rows ≤ cleaned_rows ≤ raw_rows`:
these modes only ever remove rows. -/
theorem C8_stats_monotone (mode : String) (df : DataFrame) (months : List Nat)
    (ids : List String) (s : ProcState) (r c f u fin : Nat)
    (hmode : mode = "WSA" ∨ mode = "WAPPR")
    (hok : process_allS mode df months ids = .ok s)
    (h1 : s.stats.raw_rows = some r) (h2 : s.stats.cleaned_rows = some c)
    (h3 : s.stats.filtered_rows = some f) (h4 : s.stats.unique_rows = some u)
    (h5 : s.stats.final_rows = some fin) :
    fin ≤ u ∧ u ≤ f ∧ f ≤ c ∧ c ≤ r := by
  rw [process_allS] at hok
  cases e1 : clean_commonS (load_dataS (initProc mode df)) with
  | error msg => rw [e1] at hok; cases hok
  | ok s1 =>
  rw [e1] at hok
  simp only at hok
  cases e2 : filter_by_modeS s1 with
  | error msg => rw [e2] at hok; cases hok
  | ok s2 =>
  rw [e2] at hok
  simp only at hok
  cases e3 : filter_by_monthS months s2 with
  | error msg => rw [e3] at hok; cases hok
  | ok s3 =>
  rw [e3] at hok
  simp only at hok
  cases e4 : remove_duplicatesS ids none s3 with
  | error msg => rw [e4] at hok; cases hok
  | ok s4 =>
  rw [e4] at hok
  simp only at hok
  have hraw0 : (load_dataS (initProc mode df)).dfRaw = some 1 := rfl
  have hheap0 : ((load_dataS (initProc mode df)).heap 1) = df := rfl
  have hstat0 : (load_dataS (initProc mode df)).stats.raw_rows =
      some df.rows.length := rfl
  have huniq0 : (load_dataS (initProc mode df)).stats.unique_rows = none := rfl
  obtain ⟨hm1, hr1, hu1, hfin1, tp1, hp1, hc1, hlen1⟩ :=
    clean_spec _ s1 1 hraw0 e1
  have hmode1 : s1.mode = "WSA" ∨ s1.mode = "WAPPR" := by
    rw [hm1]
    rcases hmode with rfl | rfl
    · exact Or.inl (show upperStr "WSA" = "WSA" by decide)
    · exact Or.inr (show upperStr "WAPPR" = "WAPPR" by decide)
  obtain ⟨hm2, hr2, hc2, hu2, hfin2, tq2, hp2, hf2, hlen2⟩ :=
    mode_spec s1 s2 tp1 hp1 hmode1 e2
  obtain ⟨hm3, hr3, hc3, hf3, hu3, hfin3, tq3, hp3, hlen3⟩ :=
    month_spec months s2 s3 tq2 hp2 e3
  obtain ⟨hm4, hr4, hc4, hf4, hded⟩ := dedup_spec ids none s3 s4 tq3 hp3 e4
  cases hfin : s4.dfFinal with
  | none => rw [finalizeS, hfin] at hok; cases hok
  | some tf =>
  obtain ⟨hr5, hc5, hf5, hu5, hfin5⟩ := finalize_spec "Workzone" s4 s tf hfin hok
  rcases hded with ⟨hu4, hfin4⟩ | ⟨hfin4, tf4, hfinal4, hu4, hlen4⟩
  · rw [hu5, hu4, hu3, hu2, hu1, huniq0] at h4
    cases h4
  · have htf : tf = tf4 := by
      rw [hfinal4] at hfin
      exact (Option.some.inj hfin).symm
    subst htf
    rw [hstat0] at hr1
    rw [hr5, hr4, hr3, hr2, hr1] at h1
    rw [hc5, hc4, hc3, hc2, hc1] at h2
    rw [hf5, hf4, hf3, hf2] at h3
    rw [hu5, hu4] at h4
    rw [hfin5] at h5
    have hrr : r = df.rows.length := (Option.some.inj h1).symm
    have hcc : c = (s1.heap tp1).rows.length := (Option.some.inj h2).symm
    have hff : f = (s2.heap tq2).rows.length := (Option.some.inj h3).symm
    have huu : u = (s4.heap tf).rows.length := (Option.some.inj h4).symm
    have hff2 : fin = (s4.heap tf).rows.length := (Option.some.inj h5).symm
    rw [hheap0] at hlen1
    refine ⟨?_, ?_, ?_, ?_⟩ <;> omega

/-- C8 (witness): a one-row Mode A run completes, records all five chain
counters, and the chain of inequalities holds at it. -/
theorem C8_witness :
    runStats (process_allS "WSA" ⟨[COL_SC], [[Value.str "AO1"]]⟩ [] []) =
      some ⟨some 1, some 1, some 1, some 1, none, none, some 1, some 0, some 1⟩ ∧
    ((1:Nat) ≤ 1 ∧ (1:Nat) ≤ 1 ∧ (1:Nat) ≤ 1 ∧ (1:Nat) ≤ 1) := by
  have hstats : runStats (process_allS "WSA" ⟨[COL_SC], [[Value.str "AO1"]]⟩ [] []) =
      some ⟨some 1, some 1, some 1, some 1, none, none, some 1, some 0, some 1⟩ := by
    decide
  refine ⟨hstats, ?_⟩
  cases hrun : process_allS "WSA" ⟨[COL_SC], [[Value.str "AO1"]]⟩ [] [] with
  | error e =>
    rw [runStats.eq_def, hrun] at hstats
    cases hstats
  | ok s =>
    rw [runStats.eq_def, hrun] at hstats
    simp only at hstats
    have hst : s.stats =
        ⟨some 1, some 1, some 1, some 1, none, none, some 1, some 0, some 1⟩ :=
      Option.some.inj hstats
    exact C8_stats_monotone "WSA" _ [] [] s 1 1 1 1 1 (Or.inl rfl) hrun
      (by rw [hst]) (by rw [hst]) (by rw [hst]) (by rw [hst]) (by rw [hst])
